import Mathlib

/-!
# Verification of the depinj-express core

Shallow embedding of `src/injected-handler.ts` and `src/injected-middleware.ts`:
the scope-binder / handler-resolver core that adapts services from a
dependency-injection container (depinj-js) into Express middleware.

Modelling choices:
* A request is an opaque identity (`ReqId`), since the core only uses it as
  the key passed to `Injector.createScope`.
* A handler body (`HBody`) is a function from invocation arguments and the
  instance's internal state to a result: updated state, a list of emitted
  observable events, and an optional thrown error value.  This captures a JS
  middleware function as a state transformer with an observable trace.
* The response object is modelled by the data the core can touch: its
  identity and the ordered list of `finish` listeners registered on it.
  Every listener the core registers is `scoped.endScope.bind(scoped)`, so a
  listener is fully described by the scope id it will tear down.
* Executions produce an event trace (`List Event`); temporal claims are
  statements about trace order and membership.
* The depinj-js container is an external collaborator (not part of this
  repository); where its behaviour matters it is modelled from the spec's
  stated contract, marked `Modelled from the spec:` in the doc comment.
-/

namespace DepinjExpress

/-- Request identity: opaque, only identity equality matters
(the core passes the request object to `createScope` and never inspects it). -/
abbrev ReqId := Nat

/-- Response identity. -/
abbrev RespId := Nat

/-- Scope identity. -/
abbrev ScopeId := Nat

/-- Internal mutable state of a service instance (the contents of the heap
cell the JS object's fields occupy). -/
abbrev InstState := Nat

/-- Arguments of one middleware invocation: the optional error argument
(present for the 4-argument error-handler signature), the request, the
response, and the continuation (`next`) token. -/
structure CallArgs where
  err : Option Nat
  req : ReqId
  res : RespId
  nxt : Nat
  deriving DecidableEq, Repr

/-- Observable events a handler body can emit: invoking the continuation,
or any other observable output. -/
inductive BEvent where
  | next (n : Nat)
  | out (tag : Nat)
  deriving DecidableEq, Repr

/-- Result of invoking a handler body: the instance's updated internal
state, the events it emitted, and `some v` if it threw / rejected with
error value `v`. -/
structure BodyResult where
  st : InstState
  evts : List BEvent
  thrown : Option Nat
  deriving DecidableEq, Repr

/-- A handler body: what a JS middleware function does when invoked. -/
abbrev HBody := CallArgs → InstState → BodyResult

/-- A resolved service instance, classified the way
`getHandler` (injected-handler.ts, lines 109-114) inspects it:
either it is directly callable (`typeof scopedHandler === 'function'`), or
it is a value whose `handle` member may (`some`) or may not (`none`) be a
function.  `obj none` stands for any non-callable value without a callable
`handle` member. -/
inductive ServiceInstance where
  | func (body : HBody)
  | obj (handleMember : Option HBody)

/-- A scope as the core consumes it: an identity plus service lookup.
The lookup returning `none` models the container raising `ServiceNotFound`. -/
structure Scope where
  id : ScopeId
  services : String → Option ServiceInstance

/-- The injector (depinj-js container) as the core consumes it:
a registry from service names to instances. -/
structure Injector where
  registry : String → Option ServiceInstance

/-- Modelled from the spec: `Injector.createScope` belongs to the external
depinj-js container, which is not part of this repository.  The spec states
"the container guarantees the same scope is returned for repeated calls
with an equal context within its lifetime" and that scopes for distinct
contexts are distinct instances, i.e. scopes are keyed by the request
identity itself. -/
def Injector.createScope (inj : Injector) (req : ReqId) : Scope :=
  { id := req, services := inj.registry }

/-- Errors the resolution path can produce: `serviceNotFound` originates in
the container (`theScope.getService`), `invalidHandlerShape` is the error
thrown by `getHandler` (injected-handler.ts, lines 117-119). -/
inductive ResolutionError where
  | serviceNotFound (name : String)
  | invalidHandlerShape (msg : String)
  deriving DecidableEq, Repr

/-- Modelled from the spec: `Scope.getService(identifier) → instance`,
throwing `ServiceNotFound` when the identifier has no registration
(spec section 6); the container's own resolution algorithm is external. -/
def Scope.getService (s : Scope) (name : String) : Except ResolutionError ServiceInstance :=
  match s.services name with
  | some inst => Except.ok inst
  | none => Except.error (ResolutionError.serviceNotFound name)

/-- The response object as the core observes it: its identity and the
ordered list of `finish` listeners registered so far, each recorded as the
scope id whose `endScope` it will call. -/
structure Resp where
  id : RespId
  listeners : List ScopeId
  deriving DecidableEq, Repr

/-- `response.on('finish', scoped.endScope.bind(scoped))`: appends one
listener for the given scope. -/
def Resp.onFinish (r : Resp) (sid : ScopeId) : Resp :=
  { r with listeners := r.listeners ++ [sid] }

/-- Events in an execution trace. -/
inductive Event where
  | attachFinish (scope : ScopeId)
  | getServiceCall (scope : ScopeId) (name : String)
  | handlerRun (args : CallArgs)
  | body (e : BEvent)
  | endScope (scope : ScopeId)
  deriving DecidableEq, Repr

/-- The exact error message built in injected-handler.ts, lines 117-119. -/
def invalidShapeMessage (middlewareName : String) : String :=
  "The instance registered to \"" ++ middlewareName ++
    "\" is not a valid middleware. It must either be a handler function or contain a handle method."

/-- Shallow embedding of `getHandler` (injected-handler.ts, lines 93-120):
creates the scope for the request, attaches the scope-end listener to the
response's finish event, resolves the service, and classifies it into a
normalized handler body.  Returns the mutated response, the events emitted
so far, and either the normalized handler or the error thrown.  Note the
listener is attached before `getService` runs, on every path. -/
def getHandler (inj : Injector) (middlewareName : String) (request : ReqId)
    (response : Resp) : Resp × List Event × Except ResolutionError HBody :=
  let theScope := inj.createScope request
  let response1 := response.onFinish theScope.id
  let evts := [Event.attachFinish theScope.id, Event.getServiceCall theScope.id middlewareName]
  match theScope.getService middlewareName with
  | Except.error e => (response1, evts, Except.error e)
  | Except.ok (ServiceInstance.func body) => (response1, evts, Except.ok body)
  | Except.ok (ServiceInstance.obj (some handleBody)) => (response1, evts, Except.ok handleBody)
  | Except.ok (ServiceInstance.obj none) =>
      (response1, evts,
        Except.error (ResolutionError.invalidHandlerShape (invalidShapeMessage middlewareName)))

/-- Outcome of running a wrapped handler once. -/
inductive RunOutcome where
  | ok
  | resolutionError (e : ResolutionError)
  | handlerThrew (v : Nat)
  | typeError
  deriving DecidableEq, Repr

/-- Result of one invocation of a wrapped handler: the mutated response,
the instance's internal state after the run, the event trace, and the
outcome. -/
structure RunResult where
  resp : Resp
  st : InstState
  trace : List Event
  outcome : RunOutcome
  deriving Repr

/-- Turn a body's optional thrown value into a run outcome
(`await` rethrows a rejection unchanged). -/
def outcomeOfThrown : Option Nat → RunOutcome
  | none => RunOutcome.ok
  | some v => RunOutcome.handlerThrew v

/-- Shallow embedding of one invocation of the handler produced by
`toInjectedHandler` (injected-handler.ts, lines 45-50): resolve through
`getHandler`, then `await instantiatedHandler(req, res, next)` with the
original arguments.  The instance's internal state is threaded explicitly. -/
def runInjectedHandler (inj : Injector) (middlewareName : String) (req : ReqId)
    (res : Resp) (nxt : Nat) (st : InstState) : RunResult :=
  match getHandler inj middlewareName req res with
  | (res1, evts, Except.error e) =>
      { resp := res1, st := st, trace := evts, outcome := RunOutcome.resolutionError e }
  | (res1, evts, Except.ok body) =>
      let args : CallArgs := { err := none, req := req, res := res.id, nxt := nxt }
      let r := body args st
      { resp := res1, st := r.st,
        trace := evts ++ [Event.handlerRun args] ++ r.evts.map Event.body,
        outcome := outcomeOfThrown r.thrown }

/-- Shallow embedding of one invocation of the handler produced by
`toInjectedErrorHandler` (injected-handler.ts, lines 72-77): identical to
`runInjectedHandler` but with the 4-argument signature, passing the
received error value into the invocation unchanged, in first position. -/
def runInjectedErrorHandler (inj : Injector) (middlewareName : String) (e : Nat)
    (req : ReqId) (res : Resp) (nxt : Nat) (st : InstState) : RunResult :=
  match getHandler inj middlewareName req res with
  | (res1, evts, Except.error er) =>
      { resp := res1, st := st, trace := evts, outcome := RunOutcome.resolutionError er }
  | (res1, evts, Except.ok body) =>
      let args : CallArgs := { err := some e, req := req, res := res.id, nxt := nxt }
      let r := body args st
      { resp := res1, st := r.st,
        trace := evts ++ [Event.handlerRun args] ++ r.evts.map Event.body,
        outcome := outcomeOfThrown r.thrown }

/-- The identifier accepted by `toInjectedMiddleware`: a string name or a
type reference (whose `.name` is used for lookup). -/
inductive MiddlewareIdent where
  | strName (s : String)
  | typeRef (typeName : String)
  deriving DecidableEq, Repr

/-- `typeof DependentType === 'string' ? DependentType : DependentType.name`
(injected-middleware.ts, line 37). -/
def MiddlewareIdent.lookupName : MiddlewareIdent → String
  | MiddlewareIdent.strName s => s
  | MiddlewareIdent.typeRef n => n

/-- Shallow embedding of one invocation of the handler produced by
`toInjectedMiddleware` (injected-middleware.ts, lines 29-42): creates the
scope, attaches the scope-end listener, derives the lookup name, resolves
the service, and calls `scopedHandler.handle(req, res, next)` directly —
with no shape classification.  If the resolved value has no callable
`handle` member (including when it is itself a plain function), the call
`scopedHandler.handle(...)` is a JS TypeError. -/
def runInjectedMiddleware (inj : Injector) (ident : MiddlewareIdent) (req : ReqId)
    (res : Resp) (nxt : Nat) (st : InstState) : RunResult :=
  let theScope := inj.createScope req
  let res1 := res.onFinish theScope.id
  let serviceName := ident.lookupName
  let evts := [Event.attachFinish theScope.id, Event.getServiceCall theScope.id serviceName]
  match theScope.getService serviceName with
  | Except.error e =>
      { resp := res1, st := st, trace := evts, outcome := RunOutcome.resolutionError e }
  | Except.ok (ServiceInstance.obj (some handleBody)) =>
      let args : CallArgs := { err := none, req := req, res := res.id, nxt := nxt }
      let r := handleBody args st
      { resp := res1, st := r.st,
        trace := evts ++ [Event.handlerRun args] ++ r.evts.map Event.body,
        outcome := outcomeOfThrown r.thrown }
  | Except.ok (ServiceInstance.func _) =>
      { resp := res1, st := st, trace := evts, outcome := RunOutcome.typeError }
  | Except.ok (ServiceInstance.obj none) =>
      { resp := res1, st := st, trace := evts, outcome := RunOutcome.typeError }

/-- The host fires the response's one-shot `finish` event: every registered
listener runs in registration order, and every core-registered listener
calls `endScope` on its captured scope. -/
def fireFinish (r : Resp) : List Event :=
  r.listeners.map Event.endScope

/-- Projection of a trace onto the events emitted by the handler body. -/
def bodyEvents (t : List Event) : List BEvent :=
  t.filterMap fun e =>
    match e with
    | Event.body b => some b
    | _ => none

/-! ## Concrete instances for examples -/

/-- A sample handler body: increments the instance state and calls the
continuation. -/
def demoBody : HBody := fun a s =>
  { st := s + 1, evts := [BEvent.next a.nxt], thrown := none }

/-- A handler body that throws the error value 5. -/
def throwingBody : HBody := fun _ s =>
  { st := s, evts := [], thrown := some 5 }

/-- A registry with one `handle`-bearing middleware registered under "M". -/
def demoObjInjector : Injector :=
  { registry := fun n =>
      if n = "M" then some (ServiceInstance.obj (some demoBody)) else none }

/-- A registry with one directly-callable middleware registered under "F". -/
def demoFuncInjector : Injector :=
  { registry := fun n =>
      if n = "F" then some (ServiceInstance.func demoBody) else none }

/-- A registry with one invalid-shape value registered under "D", and one
throwing callable registered under "T". -/
def demoMixedInjector : Injector :=
  { registry := fun n =>
      if n = "D" then some (ServiceInstance.obj none)
      else if n = "T" then some (ServiceInstance.func throwingBody)
      else none }

/-- An injector with no registrations. -/
def emptyInjector : Injector := { registry := fun _ => none }

/-- A fresh response with no listeners. -/
def demoResp : Resp := { id := 0, listeners := [] }

/-! ## Helper lemmas -/

theorem bodyEvents_append (t1 t2 : List Event) :
    bodyEvents (t1 ++ t2) = bodyEvents t1 ++ bodyEvents t2 := by
  simp [bodyEvents, List.filterMap_append]

theorem bodyEvents_map_body (l : List BEvent) :
    bodyEvents (l.map Event.body) = l := by
  induction l with
  | nil => rfl
  | cons a t ih => simpa [bodyEvents, List.filterMap_cons] using ih

theorem getHandler_of_unregistered (inj : Injector) (n : String) (req : ReqId) (res : Resp)
    (h : inj.registry n = none) :
    getHandler inj n req res
      = (res.onFinish req, [Event.attachFinish req, Event.getServiceCall req n],
         Except.error (ResolutionError.serviceNotFound n)) := by
  simp [getHandler, Injector.createScope, Scope.getService, h]

theorem getHandler_of_func (inj : Injector) (n : String) (req : ReqId) (res : Resp)
    (b : HBody) (h : inj.registry n = some (ServiceInstance.func b)) :
    getHandler inj n req res
      = (res.onFinish req, [Event.attachFinish req, Event.getServiceCall req n],
         Except.ok b) := by
  simp [getHandler, Injector.createScope, Scope.getService, h]

theorem getHandler_of_handle (inj : Injector) (n : String) (req : ReqId) (res : Resp)
    (hb : HBody) (h : inj.registry n = some (ServiceInstance.obj (some hb))) :
    getHandler inj n req res
      = (res.onFinish req, [Event.attachFinish req, Event.getServiceCall req n],
         Except.ok hb) := by
  simp [getHandler, Injector.createScope, Scope.getService, h]

theorem getHandler_of_invalid (inj : Injector) (n : String) (req : ReqId) (res : Resp)
    (h : inj.registry n = some (ServiceInstance.obj none)) :
    getHandler inj n req res
      = (res.onFinish req, [Event.attachFinish req, Event.getServiceCall req n],
         Except.error (ResolutionError.invalidHandlerShape (invalidShapeMessage n))) := by
  simp [getHandler, Injector.createScope, Scope.getService, h]

theorem getHandler_fst (inj : Injector) (n : String) (req : ReqId) (res : Resp) :
    (getHandler inj n req res).1 = res.onFinish req := by
  cases h : inj.registry n with
  | none => simp [getHandler_of_unregistered inj n req res h]
  | some inst =>
    cases inst with
    | func b => simp [getHandler_of_func inj n req res b h]
    | obj m =>
      cases m with
      | none => simp [getHandler_of_invalid inj n req res h]
      | some hb => simp [getHandler_of_handle inj n req res hb h]

theorem getHandler_evts (inj : Injector) (n : String) (req : ReqId) (res : Resp) :
    (getHandler inj n req res).2.1
      = [Event.attachFinish req, Event.getServiceCall req n] := by
  cases h : inj.registry n with
  | none => simp [getHandler_of_unregistered inj n req res h]
  | some inst =>
    cases inst with
    | func b => simp [getHandler_of_func inj n req res b h]
    | obj m =>
      cases m with
      | none => simp [getHandler_of_invalid inj n req res h]
      | some hb => simp [getHandler_of_handle inj n req res hb h]

theorem runInjectedHandler_of_error (inj : Injector) (n : String) (req : ReqId)
    (res : Resp) (nxt : Nat) (st : InstState) (e : ResolutionError)
    (h : (getHandler inj n req res).2.2 = Except.error e) :
    runInjectedHandler inj n req res nxt st
      = { resp := (getHandler inj n req res).1, st := st,
          trace := (getHandler inj n req res).2.1,
          outcome := RunOutcome.resolutionError e } := by
  rcases hE : getHandler inj n req res with ⟨p1, p2, p3⟩
  rw [hE] at h
  simp at h
  subst h
  simp [runInjectedHandler, hE]

theorem runInjectedHandler_of_ok (inj : Injector) (n : String) (req : ReqId)
    (res : Resp) (nxt : Nat) (st : InstState) (b : HBody)
    (h : (getHandler inj n req res).2.2 = Except.ok b) :
    runInjectedHandler inj n req res nxt st
      = { resp := (getHandler inj n req res).1,
          st := (b { err := none, req := req, res := res.id, nxt := nxt } st).st,
          trace := (getHandler inj n req res).2.1
            ++ [Event.handlerRun { err := none, req := req, res := res.id, nxt := nxt }]
            ++ ((b { err := none, req := req, res := res.id, nxt := nxt } st).evts.map Event.body),
          outcome := outcomeOfThrown
            (b { err := none, req := req, res := res.id, nxt := nxt } st).thrown } := by
  rcases hE : getHandler inj n req res with ⟨p1, p2, p3⟩
  rw [hE] at h
  simp at h
  subst h
  simp [runInjectedHandler, hE]

theorem runInjectedErrorHandler_of_ok (inj : Injector) (n : String) (e : Nat)
    (req : ReqId) (res : Resp) (nxt : Nat) (st : InstState) (b : HBody)
    (h : (getHandler inj n req res).2.2 = Except.ok b) :
    runInjectedErrorHandler inj n e req res nxt st
      = { resp := (getHandler inj n req res).1,
          st := (b { err := some e, req := req, res := res.id, nxt := nxt } st).st,
          trace := (getHandler inj n req res).2.1
            ++ [Event.handlerRun { err := some e, req := req, res := res.id, nxt := nxt }]
            ++ ((b { err := some e, req := req, res := res.id, nxt := nxt } st).evts.map Event.body),
          outcome := outcomeOfThrown
            (b { err := some e, req := req, res := res.id, nxt := nxt } st).thrown } := by
  rcases hE : getHandler inj n req res with ⟨p1, p2, p3⟩
  rw [hE] at h
  simp at h
  subst h
  simp [runInjectedErrorHandler, hE]

theorem runInjectedMiddleware_of_handle (inj : Injector) (ident : MiddlewareIdent)
    (req : ReqId) (res : Resp) (nxt : Nat) (st : InstState) (hb : HBody)
    (h : inj.registry ident.lookupName = some (ServiceInstance.obj (some hb))) :
    runInjectedMiddleware inj ident req res nxt st
      = { resp := res.onFinish req,
          st := (hb { err := none, req := req, res := res.id, nxt := nxt } st).st,
          trace := [Event.attachFinish req, Event.getServiceCall req ident.lookupName]
            ++ [Event.handlerRun { err := none, req := req, res := res.id, nxt := nxt }]
            ++ ((hb { err := none, req := req, res := res.id, nxt := nxt } st).evts.map Event.body),
          outcome := outcomeOfThrown
            (hb { err := none, req := req, res := res.id, nxt := nxt } st).thrown } := by
  simp [runInjectedMiddleware, Injector.createScope, Scope.getService, h]

theorem runInjectedHandler_resp (inj : Injector) (n : String) (req : ReqId)
    (res : Resp) (nxt : Nat) (st : InstState) :
    (runInjectedHandler inj n req res nxt st).resp = res.onFinish req := by
  rcases hE : getHandler inj n req res with ⟨p1, p2, p3⟩
  have h1 := getHandler_fst inj n req res
  rw [hE] at h1
  simp at h1
  subst h1
  cases p3 <;> simp [runInjectedHandler, hE]

theorem fireFinish_count (r : Resp) (s : ScopeId) :
    (fireFinish r).count (Event.endScope s) = r.listeners.count s := by
  unfold fireFinish
  exact List.count_map_of_injective _ Event.endScope (fun a b h => by injection h) s

/-- `needle` occurs inside `hay` as a contiguous substring. -/
def strOccurs (needle hay : String) : Prop :=
  ∃ pre post, hay = pre ++ needle ++ post

theorem runInjectedMiddleware_of_func (inj : Injector) (ident : MiddlewareIdent)
    (req : ReqId) (res : Resp) (nxt : Nat) (st : InstState) (b : HBody)
    (h : inj.registry ident.lookupName = some (ServiceInstance.func b)) :
    runInjectedMiddleware inj ident req res nxt st
      = { resp := res.onFinish req, st := st,
          trace := [Event.attachFinish req, Event.getServiceCall req ident.lookupName],
          outcome := RunOutcome.typeError } := by
  simp [runInjectedMiddleware, Injector.createScope, Scope.getService, h]

/-! ## Claim theorems -/

/-- C1 counterexample: two core-produced handler invocations for the same
request each attach their own finish listener on the response, so when the
finish event fires, the scope's `endScope` is invoked twice — not exactly
once as the claim states. -/
theorem scope_end_invoked_twice_counterexample :
    (fireFinish (runInjectedHandler demoObjInjector "M" 7
        (runInjectedHandler demoObjInjector "M" 7 demoResp 3 0).resp 3
        (runInjectedHandler demoObjInjector "M" 7 demoResp 3 0).st).resp).count
      (Event.endScope 7) = 2 := by
  decide

/-- C1 (amended): every invocation of a core-produced handler appends
exactly one finish listener for the request's scope, and when the
response's completion signal fires, `endScope` is invoked exactly once per
registered listener — i.e. once per core-produced handler invocation that
bound the scope, with exactly-once teardown per scope delegated to the
container's idempotent `endScope`. -/
theorem scope_end_once_per_listener (inj : Injector) (name : String) (req : ReqId)
    (res : Resp) (nxt : Nat) (st : InstState) :
    (runInjectedHandler inj name req res nxt st).resp.listeners = res.listeners ++ [req]
    ∧ ∀ (r : Resp) (s : ScopeId),
        (fireFinish r).count (Event.endScope s) = r.listeners.count s := by
  constructor
  · rw [runInjectedHandler_resp]
    rfl
  · exact fun r s => fireFinish_count r s

/-- C2: if the registered instance is directly callable, `getHandler`
returns that very value unchanged (identity-preserving), and one
invocation of the wrapped handler produced by `toInjectedHandler` has the
same observable behaviour — final instance state, emitted body events, and
completion-or-throw outcome — as calling the registered function directly
with the same `(request, response, next)` arguments. -/
theorem callable_resolution_identity (inj : Injector) (name : String) (b : HBody)
    (req : ReqId) (res : Resp) (nxt : Nat) (st : InstState)
    (h : inj.registry name = some (ServiceInstance.func b)) :
    (getHandler inj name req res).2.2 = Except.ok b
    ∧ ((runInjectedHandler inj name req res nxt st).st
          = (b { err := none, req := req, res := res.id, nxt := nxt } st).st
      ∧ bodyEvents (runInjectedHandler inj name req res nxt st).trace
          = (b { err := none, req := req, res := res.id, nxt := nxt } st).evts
      ∧ (runInjectedHandler inj name req res nxt st).outcome
          = outcomeOfThrown (b { err := none, req := req, res := res.id, nxt := nxt } st).thrown) := by
  have hg := getHandler_of_func inj name req res b h
  have hok : (getHandler inj name req res).2.2 = Except.ok b := by rw [hg]
  have hrun := runInjectedHandler_of_ok inj name req res nxt st b hok
  refine ⟨hok, ?_, ?_, ?_⟩
  · rw [hrun]
  · rw [hrun]
    simp only [hg, RunResult.mk.injEq]
    rw [bodyEvents_append, bodyEvents_append, bodyEvents_map_body]
    rfl
  · rw [hrun]

/-- Witness for C2: the callable registered under "F" in
`demoFuncInjector`, invoked for request 1 with continuation 2. -/
theorem callable_resolution_identity_witness :
    demoFuncInjector.registry "F" = some (ServiceInstance.func demoBody)
    ∧ ((getHandler demoFuncInjector "F" 1 demoResp).2.2 = Except.ok demoBody
      ∧ ((runInjectedHandler demoFuncInjector "F" 1 demoResp 2 0).st
            = (demoBody { err := none, req := 1, res := demoResp.id, nxt := 2 } 0).st
        ∧ bodyEvents (runInjectedHandler demoFuncInjector "F" 1 demoResp 2 0).trace
            = (demoBody { err := none, req := 1, res := demoResp.id, nxt := 2 } 0).evts
        ∧ (runInjectedHandler demoFuncInjector "F" 1 demoResp 2 0).outcome
            = outcomeOfThrown
                (demoBody { err := none, req := 1, res := demoResp.id, nxt := 2 } 0).thrown)) :=
  ⟨rfl, callable_resolution_identity demoFuncInjector "F" demoBody 1 demoResp 2 0 rfl⟩

/-- C3: if the registered instance exposes a callable `handle` member, the
normalized handler is that member bound to the instance: one invocation of
the wrapped handler has the same observable behaviour — final instance
state, emitted body events, and completion-or-throw outcome — as calling
`instance.handle(request, response, next)` directly, and internal state
mutations made by one invocation are visible on a subsequent invocation
against the same instance (the second run starts from the first run's
final state, so two runs compose the `handle` body with itself). -/
theorem handle_member_binding (inj : Injector) (name : String) (hb : HBody)
    (req : ReqId) (res : Resp) (nxt : Nat) (st : InstState)
    (h : inj.registry name = some (ServiceInstance.obj (some hb))) :
    (getHandler inj name req res).2.2 = Except.ok hb
    ∧ ((runInjectedHandler inj name req res nxt st).st
          = (hb { err := none, req := req, res := res.id, nxt := nxt } st).st
      ∧ bodyEvents (runInjectedHandler inj name req res nxt st).trace
          = (hb { err := none, req := req, res := res.id, nxt := nxt } st).evts
      ∧ (runInjectedHandler inj name req res nxt st).outcome
          = outcomeOfThrown (hb { err := none, req := req, res := res.id, nxt := nxt } st).thrown)
    ∧ (runInjectedHandler inj name req res nxt
          ((runInjectedHandler inj name req res nxt st).st)).st
        = (hb { err := none, req := req, res := res.id, nxt := nxt }
            (hb { err := none, req := req, res := res.id, nxt := nxt } st).st).st := by
  have hg := getHandler_of_handle inj name req res hb h
  have hok : (getHandler inj name req res).2.2 = Except.ok hb := by rw [hg]
  have hrun := runInjectedHandler_of_ok inj name req res nxt st hb hok
  refine ⟨hok, ⟨?_, ?_, ?_⟩, ?_⟩
  · rw [hrun]
  · rw [hrun]
    simp only [hg]
    rw [bodyEvents_append, bodyEvents_append, bodyEvents_map_body]
    rfl
  · rw [hrun]
  · have hrun2 := runInjectedHandler_of_ok inj name req res nxt
      ((runInjectedHandler inj name req res nxt st).st) hb hok
    rw [hrun2, hrun]

/-- Witness for C3: the `handle`-bearing middleware registered under "M"
in `demoObjInjector`, invoked twice for request 1 with continuation 2. -/
theorem handle_member_binding_witness :
    demoObjInjector.registry "M" = some (ServiceInstance.obj (some demoBody))
    ∧ ((getHandler demoObjInjector "M" 1 demoResp).2.2 = Except.ok demoBody
      ∧ ((runInjectedHandler demoObjInjector "M" 1 demoResp 2 0).st
            = (demoBody { err := none, req := 1, res := demoResp.id, nxt := 2 } 0).st
        ∧ bodyEvents (runInjectedHandler demoObjInjector "M" 1 demoResp 2 0).trace
            = (demoBody { err := none, req := 1, res := demoResp.id, nxt := 2 } 0).evts
        ∧ (runInjectedHandler demoObjInjector "M" 1 demoResp 2 0).outcome
            = outcomeOfThrown
                (demoBody { err := none, req := 1, res := demoResp.id, nxt := 2 } 0).thrown)
      ∧ (runInjectedHandler demoObjInjector "M" 1 demoResp 2
            ((runInjectedHandler demoObjInjector "M" 1 demoResp 2 0).st)).st
          = (demoBody { err := none, req := 1, res := demoResp.id, nxt := 2 }
              (demoBody { err := none, req := 1, res := demoResp.id, nxt := 2 } 0).st).st) :=
  ⟨rfl, handle_member_binding demoObjInjector "M" demoBody 1 demoResp 2 0 rfl⟩

/-- C4: resolving an identifier bound to a value that is neither callable
nor exposes a callable `handle` member fails with the invalid-handler-shape
error, synchronously: the failed run contains no handler invocation and no
body event (so the continuation can never run), and the error message
contains the offending identifier's name and states that the instance must
be a handler function or contain a handle method. -/
theorem invalid_shape_rejection (inj : Injector) (name : String) (req : ReqId)
    (res : Resp) (nxt : Nat) (st : InstState)
    (h : inj.registry name = some (ServiceInstance.obj none)) :
    (runInjectedHandler inj name req res nxt st).outcome
      = RunOutcome.resolutionError
          (ResolutionError.invalidHandlerShape (invalidShapeMessage name))
    ∧ strOccurs name (invalidShapeMessage name)
    ∧ strOccurs "It must either be a handler function or contain a handle method."
        (invalidShapeMessage name)
    ∧ (∀ a, Event.handlerRun a ∉ (runInjectedHandler inj name req res nxt st).trace)
    ∧ (∀ e, Event.body e ∉ (runInjectedHandler inj name req res nxt st).trace) := by
  have hg := getHandler_of_invalid inj name req res h
  have herr : (getHandler inj name req res).2.2
      = Except.error (ResolutionError.invalidHandlerShape (invalidShapeMessage name)) := by
    rw [hg]
  have hrun := runInjectedHandler_of_error inj name req res nxt st _ herr
  refine ⟨?_, ?_, ?_, ?_, ?_⟩
  · rw [hrun]
  · exact ⟨"The instance registered to \"",
      "\" is not a valid middleware. It must either be a handler function or contain a handle method.",
      rfl⟩
  · refine ⟨"The instance registered to \"" ++ name ++ "\" is not a valid middleware. ", "", ?_⟩
    rw [String.append_empty]
    simp [invalidShapeMessage, String.append_assoc]
  · intro a
    rw [hrun]
    simp [hg]
  · intro e
    rw [hrun]
    simp [hg]

/-- Witness for C4: the invalid-shape value registered under "D" in
`demoMixedInjector`. -/
theorem invalid_shape_rejection_witness :
    demoMixedInjector.registry "D" = some (ServiceInstance.obj none)
    ∧ ((runInjectedHandler demoMixedInjector "D" 1 demoResp 2 0).outcome
        = RunOutcome.resolutionError
            (ResolutionError.invalidHandlerShape (invalidShapeMessage "D"))
      ∧ strOccurs "D" (invalidShapeMessage "D")
      ∧ strOccurs "It must either be a handler function or contain a handle method."
          (invalidShapeMessage "D")
      ∧ (∀ a, Event.handlerRun a ∉ (runInjectedHandler demoMixedInjector "D" 1 demoResp 2 0).trace)
      ∧ (∀ e, Event.body e ∉ (runInjectedHandler demoMixedInjector "D" 1 demoResp 2 0).trace)) :=
  ⟨rfl, invalid_shape_rejection demoMixedInjector "D" 1 demoResp 2 0 rfl⟩

/-- C5: scope identity is keyed by the request identity: the scopes the
container yields for two requests coincide exactly when the requests are
the same context, and the core binds each invocation to the scope of the
very request it received (the finish listener it registers names that
scope). -/
theorem scope_keyed_by_request_identity (inj : Injector) (r1 r2 : ReqId)
    (name : String) (res : Resp) (nxt : Nat) (st : InstState) :
    ((inj.createScope r1).id = (inj.createScope r2).id ↔ r1 = r2)
    ∧ (runInjectedHandler inj name r1 res nxt st).resp.listeners
        = res.listeners ++ [(inj.createScope r1).id] := by
  refine ⟨Iff.rfl, ?_⟩
  rw [runInjectedHandler_resp]
  rfl

/-- C6: on every invocation of a core-produced handler, the scope-teardown
listener is attached to the response's finish event before anything else
happens (it is the first event of the run's trace, hence before the
resolved handler executes), teardown never fires during the run itself (no
`endScope` event in the trace), and teardown fires exactly when the host
fires the response's completion signal, for every registered listener. -/
theorem listener_before_handler_teardown_after (inj : Injector) (name : String)
    (req : ReqId) (res : Resp) (nxt : Nat) (st : InstState) :
    (runInjectedHandler inj name req res nxt st).trace.head?
        = some (Event.attachFinish req)
    ∧ (∀ s : ScopeId, Event.endScope s ∉ (runInjectedHandler inj name req res nxt st).trace)
    ∧ fireFinish (runInjectedHandler inj name req res nxt st).resp
        = (res.listeners ++ [req]).map Event.endScope := by
  refine ⟨?_, ?_, ?_⟩
  · cases hx : (getHandler inj name req res).2.2 with
    | error e =>
      rw [runInjectedHandler_of_error inj name req res nxt st e hx]
      simp [getHandler_evts]
    | ok b =>
      rw [runInjectedHandler_of_ok inj name req res nxt st b hx]
      simp [getHandler_evts]
  · intro s
    cases hx : (getHandler inj name req res).2.2 with
    | error e =>
      rw [runInjectedHandler_of_error inj name req res nxt st e hx]
      simp [getHandler_evts]
    | ok b =>
      rw [runInjectedHandler_of_ok inj name req res nxt st b hx]
      simp [getHandler_evts]
  · rw [runInjectedHandler_resp]
    rfl

/-- C7: the standard adapter invokes the normalized handler with exactly
the original `(request, response, next)` arguments it received and its
returned run reflects the handler's full completion (final state, body
events, completion-or-throw outcome); the error adapter does the same with
the 4-argument signature, passing the received error value into the
invocation unchanged, in first position. -/
theorem adapters_pass_original_arguments (inj : Injector) (name : String) (b : HBody)
    (req : ReqId) (res : Resp) (nxt : Nat) (e : Nat) (st : InstState)
    (h : (getHandler inj name req res).2.2 = Except.ok b) :
    (Event.handlerRun { err := none, req := req, res := res.id, nxt := nxt }
        ∈ (runInjectedHandler inj name req res nxt st).trace
      ∧ (runInjectedHandler inj name req res nxt st).st
          = (b { err := none, req := req, res := res.id, nxt := nxt } st).st
      ∧ bodyEvents (runInjectedHandler inj name req res nxt st).trace
          = (b { err := none, req := req, res := res.id, nxt := nxt } st).evts
      ∧ (runInjectedHandler inj name req res nxt st).outcome
          = outcomeOfThrown (b { err := none, req := req, res := res.id, nxt := nxt } st).thrown)
    ∧ (Event.handlerRun { err := some e, req := req, res := res.id, nxt := nxt }
        ∈ (runInjectedErrorHandler inj name e req res nxt st).trace
      ∧ (runInjectedErrorHandler inj name e req res nxt st).st
          = (b { err := some e, req := req, res := res.id, nxt := nxt } st).st
      ∧ bodyEvents (runInjectedErrorHandler inj name e req res nxt st).trace
          = (b { err := some e, req := req, res := res.id, nxt := nxt } st).evts
      ∧ (runInjectedErrorHandler inj name e req res nxt st).outcome
          = outcomeOfThrown (b { err := some e, req := req, res := res.id, nxt := nxt } st).thrown) := by
  have hrun := runInjectedHandler_of_ok inj name req res nxt st b h
  have hrunE := runInjectedErrorHandler_of_ok inj name e req res nxt st b h
  refine ⟨⟨?_, ?_, ?_, ?_⟩, ⟨?_, ?_, ?_, ?_⟩⟩
  · rw [hrun]
    simp
  · rw [hrun]
  · rw [hrun]
    rw [bodyEvents_append, bodyEvents_append, bodyEvents_map_body, getHandler_evts]
    rfl
  · rw [hrun]
  · rw [hrunE]
    simp
  · rw [hrunE]
  · rw [hrunE]
    rw [bodyEvents_append, bodyEvents_append, bodyEvents_map_body, getHandler_evts]
    rfl
  · rw [hrunE]

/-- Witness for C7: the callable registered under "F" in
`demoFuncInjector`, standard invocation for request 1 and error invocation
with error value 9. -/
theorem adapters_pass_original_arguments_witness :
    (getHandler demoFuncInjector "F" 1 demoResp).2.2 = Except.ok demoBody
    ∧ ((Event.handlerRun { err := none, req := 1, res := demoResp.id, nxt := 2 }
          ∈ (runInjectedHandler demoFuncInjector "F" 1 demoResp 2 0).trace
        ∧ (runInjectedHandler demoFuncInjector "F" 1 demoResp 2 0).st
            = (demoBody { err := none, req := 1, res := demoResp.id, nxt := 2 } 0).st
        ∧ bodyEvents (runInjectedHandler demoFuncInjector "F" 1 demoResp 2 0).trace
            = (demoBody { err := none, req := 1, res := demoResp.id, nxt := 2 } 0).evts
        ∧ (runInjectedHandler demoFuncInjector "F" 1 demoResp 2 0).outcome
            = outcomeOfThrown
                (demoBody { err := none, req := 1, res := demoResp.id, nxt := 2 } 0).thrown)
      ∧ (Event.handlerRun { err := some 9, req := 1, res := demoResp.id, nxt := 2 }
          ∈ (runInjectedErrorHandler demoFuncInjector "F" 9 1 demoResp 2 0).trace
        ∧ (runInjectedErrorHandler demoFuncInjector "F" 9 1 demoResp 2 0).st
            = (demoBody { err := some 9, req := 1, res := demoResp.id, nxt := 2 } 0).st
        ∧ bodyEvents (runInjectedErrorHandler demoFuncInjector "F" 9 1 demoResp 2 0).trace
            = (demoBody { err := some 9, req := 1, res := demoResp.id, nxt := 2 } 0).evts
        ∧ (runInjectedErrorHandler demoFuncInjector "F" 9 1 demoResp 2 0).outcome
            = outcomeOfThrown
                (demoBody { err := some 9, req := 1, res := demoResp.id, nxt := 2 } 0).thrown)) :=
  ⟨rfl, adapters_pass_original_arguments demoFuncInjector "F" demoBody 1 demoResp 2 9 0 rfl⟩

/-- C8: the core performs no local error recovery: the `ServiceNotFound`
error raised by the container for an unregistered identifier propagates
out of the wrapped handler exactly as the container raised it, and an
error value thrown inside the normalized handler's own body surfaces as
the run's outcome unchanged. -/
theorem no_local_error_recovery (inj inj2 : Injector) (nm nm2 : String) (b : HBody)
    (req : ReqId) (res : Resp) (nxt : Nat) (st : InstState) (v : Nat)
    (h1 : inj.registry nm = none)
    (h2 : inj2.registry nm2 = some (ServiceInstance.func b))
    (h3 : (b { err := none, req := req, res := res.id, nxt := nxt } st).thrown = some v) :
    ((inj.createScope req).getService nm
        = Except.error (ResolutionError.serviceNotFound nm)
      ∧ (runInjectedHandler inj nm req res nxt st).outcome
          = RunOutcome.resolutionError (ResolutionError.serviceNotFound nm))
    ∧ (runInjectedHandler inj2 nm2 req res nxt st).outcome = RunOutcome.handlerThrew v := by
  refine ⟨⟨?_, ?_⟩, ?_⟩
  · simp [Injector.createScope, Scope.getService, h1]
  · have herr : (getHandler inj nm req res).2.2
        = Except.error (ResolutionError.serviceNotFound nm) := by
      rw [getHandler_of_unregistered inj nm req res h1]
    rw [runInjectedHandler_of_error inj nm req res nxt st _ herr]
  · have hok : (getHandler inj2 nm2 req res).2.2 = Except.ok b := by
      rw [getHandler_of_func inj2 nm2 req res b h2]
    rw [runInjectedHandler_of_ok inj2 nm2 req res nxt st b hok]
    simp [h3, outcomeOfThrown]

/-- Witness for C8: the unregistered identifier "X" against the empty
injector, and the throwing callable registered under "T" in
`demoMixedInjector`, which throws the error value 5. -/
theorem no_local_error_recovery_witness :
    emptyInjector.registry "X" = none
    ∧ demoMixedInjector.registry "T" = some (ServiceInstance.func throwingBody)
    ∧ (throwingBody { err := none, req := 1, res := demoResp.id, nxt := 2 } 0).thrown = some 5
    ∧ (((emptyInjector.createScope 1).getService "X"
          = Except.error (ResolutionError.serviceNotFound "X")
        ∧ (runInjectedHandler emptyInjector "X" 1 demoResp 2 0).outcome
            = RunOutcome.resolutionError (ResolutionError.serviceNotFound "X"))
      ∧ (runInjectedHandler demoMixedInjector "T" 1 demoResp 2 0).outcome
          = RunOutcome.handlerThrew 5) :=
  ⟨rfl, rfl, rfl,
    no_local_error_recovery emptyInjector demoMixedInjector "X" "T" throwingBody
      1 demoResp 2 0 5 rfl rfl rfl⟩

/-- C9 counterexample: the type-directed variant does not behave
identically to the standard adapter for every resolved service: for the
directly-callable service registered under "F", the standard adapter
invokes it and completes, while `toInjectedMiddleware` calls
`scopedHandler.handle(...)` on a function with no `handle` member, a
TypeError. -/
theorem typed_variant_differs_counterexample :
    (runInjectedMiddleware demoFuncInjector (MiddlewareIdent.strName "F")
        1 demoResp 2 0).outcome = RunOutcome.typeError
    ∧ (runInjectedHandler demoFuncInjector "F" 1 demoResp 2 0).outcome
        = RunOutcome.ok := by
  decide

/-- C9 (amended): the type-directed variant derives the lookup name from
the identifier — a string is used as-is and a type reference contributes
its name — and for every resolved service that exposes a callable `handle`
member it behaves identically to the standard adapter; it performs no
shape normalization, so the equivalence does not extend to
directly-callable services. -/
theorem typed_variant_equiv_on_handle_bearing (inj : Injector) (ident : MiddlewareIdent)
    (hb : HBody) (req : ReqId) (res : Resp) (nxt : Nat) (st : InstState)
    (h : inj.registry ident.lookupName = some (ServiceInstance.obj (some hb))) :
    runInjectedMiddleware inj ident req res nxt st
      = runInjectedHandler inj ident.lookupName req res nxt st
    ∧ (∀ s, (MiddlewareIdent.strName s).lookupName = s)
    ∧ (∀ t, (MiddlewareIdent.typeRef t).lookupName = t) := by
  refine ⟨?_, fun s => rfl, fun t => rfl⟩
  have hg := getHandler_of_handle inj ident.lookupName req res hb h
  have hok : (getHandler inj ident.lookupName req res).2.2 = Except.ok hb := by rw [hg]
  rw [runInjectedMiddleware_of_handle inj ident req res nxt st hb h,
      runInjectedHandler_of_ok inj ident.lookupName req res nxt st hb hok, hg]

/-- Witness for C9 (amended): the `handle`-bearing middleware registered
under "M", looked up through a type reference named "M". -/
theorem typed_variant_equiv_witness :
    demoObjInjector.registry (MiddlewareIdent.typeRef "M").lookupName
        = some (ServiceInstance.obj (some demoBody))
    ∧ (runInjectedMiddleware demoObjInjector (MiddlewareIdent.typeRef "M") 1 demoResp 2 0
          = runInjectedHandler demoObjInjector
              (MiddlewareIdent.typeRef "M").lookupName 1 demoResp 2 0
      ∧ (∀ s, (MiddlewareIdent.strName s).lookupName = s)
      ∧ (∀ t, (MiddlewareIdent.typeRef t).lookupName = t)) :=
  ⟨rfl, typed_variant_equiv_on_handle_bearing demoObjInjector
    (MiddlewareIdent.typeRef "M") demoBody 1 demoResp 2 0 rfl⟩

/-- C10: when service resolution fails for an unregistered identifier, the
scope has already been created and the finish listener already attached:
the failed run still carries the appended listener (the response mutation
is not undone), the attach event precedes the failure in the trace, and
teardown still fires for that scope when the response finishes; the same
listener mutation survives in the type-directed variant. -/
theorem listener_attached_despite_failure (inj : Injector) (name : String)
    (req : ReqId) (res : Resp) (nxt : Nat) (st : InstState)
    (h : inj.registry name = none) :
    (runInjectedHandler inj name req res nxt st).outcome
        = RunOutcome.resolutionError (ResolutionError.serviceNotFound name)
    ∧ (runInjectedHandler inj name req res nxt st).resp.listeners
        = res.listeners ++ [req]
    ∧ (runInjectedHandler inj name req res nxt st).trace.head?
        = some (Event.attachFinish req)
    ∧ Event.endScope req ∈ fireFinish (runInjectedHandler inj name req res nxt st).resp
    ∧ (runInjectedMiddleware inj (MiddlewareIdent.strName name) req res nxt st).resp.listeners
        = res.listeners ++ [req] := by
  have herr : (getHandler inj name req res).2.2
      = Except.error (ResolutionError.serviceNotFound name) := by
    rw [getHandler_of_unregistered inj name req res h]
  have hrun := runInjectedHandler_of_error inj name req res nxt st _ herr
  refine ⟨?_, ?_, ?_, ?_, ?_⟩
  · rw [hrun]
  · rw [runInjectedHandler_resp]
    rfl
  · rw [hrun]
    simp [getHandler_evts]
  · rw [runInjectedHandler_resp]
    simp [fireFinish, Resp.onFinish]
  · simp [runInjectedMiddleware, Injector.createScope, Scope.getService,
      MiddlewareIdent.lookupName, h, Resp.onFinish]

/-- Witness for C10: the unregistered identifier "X" against the empty
injector. -/
theorem listener_attached_despite_failure_witness :
    emptyInjector.registry "X" = none
    ∧ ((runInjectedHandler emptyInjector "X" 1 demoResp 2 0).outcome
          = RunOutcome.resolutionError (ResolutionError.serviceNotFound "X")
      ∧ (runInjectedHandler emptyInjector "X" 1 demoResp 2 0).resp.listeners
          = demoResp.listeners ++ [1]
      ∧ (runInjectedHandler emptyInjector "X" 1 demoResp 2 0).trace.head?
          = some (Event.attachFinish 1)
      ∧ Event.endScope 1 ∈ fireFinish (runInjectedHandler emptyInjector "X" 1 demoResp 2 0).resp
      ∧ (runInjectedMiddleware emptyInjector (MiddlewareIdent.strName "X")
            1 demoResp 2 0).resp.listeners = demoResp.listeners ++ [1]) :=
  ⟨rfl, listener_attached_despite_failure emptyInjector "X" 1 demoResp 2 0 rfl⟩

end DepinjExpress
